import Mathlib

/-!
# The SPERR C facade (`sperr-sys/wrapper.hpp`)

`wrapper.hpp` exposes six C functions.  Five of them consist of a single
`return C_API::f(args...)` statement and the sixth of a single `free(dst)`
statement.  This file embeds those six bodies and proves the pass-through and
release properties of the facade.

The codec behind `C_API::` is not part of `wrapper.hpp`; it is taken as a
parameter (`Codec`): five arbitrary, total, deterministic functions on the
machine state.  Nothing is assumed about what they compute.
-/

namespace Sperr

/-- The value of a C pointer (`const void *`, `void **`, `size_t *`, `int *`).
`0` is `NULL`. -/
abbrev Addr := Nat

/-- The raw contents of one scalar object in memory: a `size_t` value, a pointer
value, a byte, or the bit pattern of an `int`. -/
abbrev Word := Nat

/-- A C `double`, as its 64-bit pattern.  The facade only copies it. -/
abbrev Double := Nat

/-- What C code can observe and change: the contents of memory and the set of
live `malloc` blocks (base address to block size). -/
structure Machine where
  mem : Addr → Word
  live : Addr → Option Nat

/-- Memory after writing `v` to the object at `a`. -/
def Machine.store (m : Machine) (a : Addr) (v : Word) : Machine :=
  ⟨fun b => if b = a then v else m.mem b, m.live⟩

/-- The five entry points of `SPERR_C_API.h`, with the parameter lists that
`wrapper.hpp` calls them with.  Pointer parameters are addresses; the codec reads
and writes through them in the `Machine`. -/
structure Codec where
  sperr_comp_2d : Addr → Int → Nat → Nat → Int → Double → Int → Addr → Addr →
    Machine → Int × Machine
  sperr_decomp_2d : Addr → Nat → Int → Nat → Nat → Addr → Machine → Int × Machine
  sperr_parse_header : Addr → Addr → Addr → Addr → Addr → Machine → Machine
  sperr_comp_3d : Addr → Int → Nat → Nat → Nat → Nat → Nat → Nat → Int → Double → Nat →
    Addr → Addr → Machine → Int × Machine
  sperr_decomp_3d : Addr → Nat → Int → Nat → Addr → Addr → Addr → Addr →
    Machine → Int × Machine

/-- One call from the facade into the codec, with the arguments in the order in
which they were passed. -/
inductive Call where
  | comp_2d (src : Addr) (is_float : Int) (dimx dimy : Nat) (mode : Int) (quality : Double)
      (out_inc_header : Int) (dst dst_len : Addr)
  | decomp_2d (src : Addr) (src_len : Nat) (output_float : Int) (dimx dimy : Nat) (dst : Addr)
  | parse_header (src dimx dimy dimz is_float : Addr)
  | comp_3d (src : Addr) (is_float : Int) (dimx dimy dimz chunk_x chunk_y chunk_z : Nat)
      (mode : Int) (quality : Double) (nthreads : Nat) (dst dst_len : Addr)
  | decomp_3d (src : Addr) (src_len : Nat) (output_float : Int) (nthreads : Nat)
      (dimx dimy dimz dst : Addr)
  deriving DecidableEq, Repr

/-- The machine together with the log of calls made into the codec.  The log is
ghost state: it is written only where the source has a `C_API::` call
expression, and the codec cannot touch it. -/
structure State where
  m : Machine
  trace : List Call

/-- Body of `sperr_comp_2d` (wrapper.hpp, lines 5-17). -/
def sperr_comp_2d (C : Codec) (src : Addr) (is_float : Int) (dimx dimy : Nat) (mode : Int)
    (quality : Double) (out_inc_header : Int) (dst dst_len : Addr) (s : State) : Int × State :=
  let r := C.sperr_comp_2d src is_float dimx dimy mode quality out_inc_header dst dst_len s.m
  (r.1, ⟨r.2, s.trace ++
    [Call.comp_2d src is_float dimx dimy mode quality out_inc_header dst dst_len]⟩)

/-- Body of `sperr_decomp_2d` (wrapper.hpp, lines 19-28). -/
def sperr_decomp_2d (C : Codec) (src : Addr) (src_len : Nat) (output_float : Int)
    (dimx dimy : Nat) (dst : Addr) (s : State) : Int × State :=
  let r := C.sperr_decomp_2d src src_len output_float dimx dimy dst s.m
  (r.1, ⟨r.2, s.trace ++ [Call.decomp_2d src src_len output_float dimx dimy dst]⟩)

/-- Body of `sperr_parse_header` (wrapper.hpp, lines 30-38).  A `void` function:
the result is the state alone. -/
def sperr_parse_header (C : Codec) (src dimx dimy dimz is_float : Addr) (s : State) : State :=
  ⟨C.sperr_parse_header src dimx dimy dimz is_float s.m,
    s.trace ++ [Call.parse_header src dimx dimy dimz is_float]⟩

/-- Body of `sperr_comp_3d` (wrapper.hpp, lines 40-56). -/
def sperr_comp_3d (C : Codec) (src : Addr) (is_float : Int)
    (dimx dimy dimz chunk_x chunk_y chunk_z : Nat) (mode : Int) (quality : Double)
    (nthreads : Nat) (dst dst_len : Addr) (s : State) : Int × State :=
  let r := C.sperr_comp_3d src is_float dimx dimy dimz chunk_x chunk_y chunk_z mode quality
    nthreads dst dst_len s.m
  (r.1, ⟨r.2, s.trace ++ [Call.comp_3d src is_float dimx dimy dimz chunk_x chunk_y chunk_z
    mode quality nthreads dst dst_len]⟩)

/-- Body of `sperr_decomp_3d` (wrapper.hpp, lines 58-69). -/
def sperr_decomp_3d (C : Codec) (src : Addr) (src_len : Nat) (output_float : Int)
    (nthreads : Nat) (dimx dimy dimz dst : Addr) (s : State) : Int × State :=
  let r := C.sperr_decomp_3d src src_len output_float nthreads dimx dimy dimz dst s.m
  (r.1, ⟨r.2, s.trace ++
    [Call.decomp_3d src src_len output_float nthreads dimx dimy dimz dst]⟩)

/-- Modelled from the spec: the C allocator's `free` of `stdlib.h`, which
`wrapper.hpp` calls and does not define.  Releasing a live block removes it from
the live set and touches nothing else; `free(NULL)` does nothing; releasing any
other pointer (never allocated, or already released) is undefined behaviour,
rendered as `none`. -/
def free (p : Addr) (m : Machine) : Option Machine :=
  if p = 0 then some m
  else
    match m.live p with
    | some _ => some ⟨m.mem, fun q => if q = p then none else m.live q⟩
    | none => none

/-- Body of `free_dst` (wrapper.hpp, lines 71-74).  The call log is not written:
the body has no `C_API::` call. -/
def free_dst (dst : Addr) (s : State) : Option State :=
  match free dst s.m with
  | some m => some ⟨m, s.trace⟩
  | none => none

/-- What the caller of `sperr_decomp_3d` can look at afterwards: the status and
the contents of `*dst`, `*dimx`, `*dimy`, `*dimz`. -/
def decomp_3d_observed (dimx dimy dimz dst : Addr) (status : Int) (m : Machine) :
    Int × Word × Word × Word × Word :=
  (status, m.mem dst, m.mem dimx, m.mem dimy, m.mem dimz)

/-- The machine in which the three dimension slots hold `x`, `y`, `z` before the
call. -/
def withDims (m : Machine) (dimx dimy dimz : Addr) (x y z : Word) : Machine :=
  ((m.store dimx x).store dimy y).store dimz z

/-- A small concrete codec for instantiating the theorems.  Its
`sperr_parse_header` and `sperr_decomp_3d` copy the header words found at `src`
into the output slots, and `sperr_decomp_3d` also stores a buffer address in
`*dst`; the other entry points return status `0` and change nothing. -/
def sampleCodec : Codec where
  sperr_comp_2d := fun _ _ _ _ _ _ _ _ _ m => (0, m)
  sperr_decomp_2d := fun _ _ _ _ _ _ m => (0, m)
  sperr_parse_header := fun src dimx dimy dimz is_float m =>
    (((m.store dimx (m.mem src)).store dimy (m.mem (src + 1))).store dimz
      (m.mem (src + 2))).store is_float (m.mem (src + 3))
  sperr_comp_3d := fun _ _ _ _ _ _ _ _ _ _ _ _ _ m => (0, m)
  sperr_decomp_3d := fun src _ _ _ dimx dimy dimz dst m =>
    (0, (((m.store dimx (m.mem src)).store dimy (m.mem (src + 1))).store dimz
      (m.mem (src + 2))).store dst 4096)

/-- A machine whose memory holds the header words `7, 8, 9, 1` at addresses
`10 .. 13` and which has two live blocks, at `4096` (16 bytes) and `8192`
(32 bytes). -/
def sampleMachine : Machine :=
  ⟨fun a => if a = 10 then 7 else if a = 11 then 8 else if a = 12 then 9
      else if a = 13 then 1 else 0,
    fun a => if a = 4096 then some 16 else if a = 8192 then some 32 else none⟩

/-- What one call of a codec entry point does when it is computed without
looking at certain cells: the status it returns, the cells it writes (in the
order written) and the live set it leaves. -/
structure Effect where
  status : Int
  writes : List (Addr × Word)
  live : Addr → Option Nat

/-- Memory contents after performing the writes in order. -/
def applyWrites (mem : Addr → Word) : List (Addr × Word) → Addr → Word
  | [] => mem
  | w :: ws => applyWrites (fun b => if b = w.1 then w.2 else mem b) ws

/-- The result of a call with effect `e` started in machine `m`: cells that are
not written keep the contents they have in `m`. -/
def runEffect (e : Effect) (m : Machine) : Int × Machine :=
  (e.status, ⟨applyWrites m.mem e.writes, e.live⟩)

/-- The machine with the contents of the three dimension slots blanked out. -/
def hideDims (m : Machine) (dimx dimy dimz : Addr) : Machine :=
  withDims m dimx dimy dimz 0 0 0

/-- The codec's `sperr_decomp_3d` does not read the three dimension slots on
these arguments: its status, its writes and the live set it leaves are computed
by `core` from the machine with the slots blanked out. -/
def DoesNotReadDims (C : Codec) (src : Addr) (src_len : Nat) (output_float : Int)
    (nthreads : Nat) (dimx dimy dimz dst : Addr) (core : Machine → Effect) : Prop :=
  ∀ m : Machine,
    C.sperr_decomp_3d src src_len output_float nthreads dimx dimy dimz dst m
      = runEffect (core (hideDims m dimx dimy dimz)) m

/-- The effect of `sampleCodec.sperr_decomp_3d`: status `0`, the three header
words written to the dimension slots, a buffer address written to `*dst`. -/
def sampleCore (src dimx dimy dimz dst : Addr) (m : Machine) : Effect :=
  ⟨0, [(dimx, m.mem src), (dimy, m.mem (src + 1)), (dimz, m.mem (src + 2)), (dst, 4096)],
    m.live⟩

/-- A codec whose `sperr_decomp_3d` rejects every stream: it returns `-1` and
writes nothing.  The other entry points are those of `sampleCodec`. -/
def rejectingCodec : Codec where
  sperr_comp_2d := sampleCodec.sperr_comp_2d
  sperr_decomp_2d := sampleCodec.sperr_decomp_2d
  sperr_parse_header := sampleCodec.sperr_parse_header
  sperr_comp_3d := sampleCodec.sperr_comp_3d
  sperr_decomp_3d := fun _ _ _ _ _ _ _ _ m => (-1, m)

/-- The effect of `rejectingCodec.sperr_decomp_3d`: status `-1`, no write. -/
def rejectingCore (m : Machine) : Effect :=
  ⟨-1, [], m.live⟩

/-! ## Pass-through of the five codec entry points -/

/-- C1: for every codec, argument tuple and initial state, `sperr_comp_2d`
returns exactly the status the codec returns on the same nine arguments in the
same order, leaves the machine (in particular `*dst` and `*dst_len`) exactly as
the codec left it, is non-zero exactly when the codec's status is, and makes
exactly one codec call. -/
theorem sperr_comp_2d_passthrough (C : Codec) (src : Addr) (is_float : Int) (dimx dimy : Nat)
    (mode : Int) (quality : Double) (out_inc_header : Int) (dst dst_len : Addr) (s : State) :
    (sperr_comp_2d C src is_float dimx dimy mode quality out_inc_header dst dst_len s).1
        = (C.sperr_comp_2d src is_float dimx dimy mode quality out_inc_header dst dst_len s.m).1
    ∧ (sperr_comp_2d C src is_float dimx dimy mode quality out_inc_header dst dst_len s).2.m
        = (C.sperr_comp_2d src is_float dimx dimy mode quality out_inc_header dst dst_len s.m).2
    ∧ (sperr_comp_2d C src is_float dimx dimy mode quality out_inc_header dst dst_len s).2.m.mem dst
        = (C.sperr_comp_2d src is_float dimx dimy mode quality out_inc_header dst dst_len
            s.m).2.mem dst
    ∧ (sperr_comp_2d C src is_float dimx dimy mode quality out_inc_header dst dst_len
          s).2.m.mem dst_len
        = (C.sperr_comp_2d src is_float dimx dimy mode quality out_inc_header dst dst_len
            s.m).2.mem dst_len
    ∧ ((sperr_comp_2d C src is_float dimx dimy mode quality out_inc_header dst dst_len s).1 ≠ 0
        ↔ (C.sperr_comp_2d src is_float dimx dimy mode quality out_inc_header dst dst_len
            s.m).1 ≠ 0)
    ∧ (sperr_comp_2d C src is_float dimx dimy mode quality out_inc_header dst dst_len s).2.trace
        = s.trace ++
          [Call.comp_2d src is_float dimx dimy mode quality out_inc_header dst dst_len] :=
  ⟨rfl, rfl, rfl, rfl, Iff.rfl, rfl⟩

/-- C2: for every codec, argument tuple and initial state, `sperr_decomp_2d`
returns exactly the status of the codec's `sperr_decomp_2d`, called once with the
same six arguments in the same order, and leaves the machine (in particular
`*dst`) exactly as the codec left it.  `output_float`, `dimx` and `dimy` are
passed by value and reach the codec unchanged; the facade has no path that
returns without the codec's verdict. -/
theorem sperr_decomp_2d_passthrough (C : Codec) (src : Addr) (src_len : Nat)
    (output_float : Int) (dimx dimy : Nat) (dst : Addr) (s : State) :
    (sperr_decomp_2d C src src_len output_float dimx dimy dst s).1
        = (C.sperr_decomp_2d src src_len output_float dimx dimy dst s.m).1
    ∧ (sperr_decomp_2d C src src_len output_float dimx dimy dst s).2.m
        = (C.sperr_decomp_2d src src_len output_float dimx dimy dst s.m).2
    ∧ (sperr_decomp_2d C src src_len output_float dimx dimy dst s).2.m.mem dst
        = (C.sperr_decomp_2d src src_len output_float dimx dimy dst s.m).2.mem dst
    ∧ (sperr_decomp_2d C src src_len output_float dimx dimy dst s).2.trace
        = s.trace ++ [Call.decomp_2d src src_len output_float dimx dimy dst] :=
  ⟨rfl, rfl, rfl, rfl⟩

/-- C3: for every codec, argument tuple and initial state, `sperr_comp_3d` makes
one codec call whose arguments are `src, is_float, dimx, dimy, dimz, chunk_x,
chunk_y, chunk_z, mode, quality, nthreads, dst, dst_len` in that order, with
`nthreads`, the volume dimensions and the chunk dimensions unchanged, and
returns exactly the codec's status and machine (in particular `*dst` and
`*dst_len`). -/
theorem sperr_comp_3d_passthrough (C : Codec) (src : Addr) (is_float : Int)
    (dimx dimy dimz chunk_x chunk_y chunk_z : Nat) (mode : Int) (quality : Double)
    (nthreads : Nat) (dst dst_len : Addr) (s : State) :
    (sperr_comp_3d C src is_float dimx dimy dimz chunk_x chunk_y chunk_z mode quality
        nthreads dst dst_len s).1
      = (C.sperr_comp_3d src is_float dimx dimy dimz chunk_x chunk_y chunk_z mode quality
          nthreads dst dst_len s.m).1
    ∧ (sperr_comp_3d C src is_float dimx dimy dimz chunk_x chunk_y chunk_z mode quality
        nthreads dst dst_len s).2.m
      = (C.sperr_comp_3d src is_float dimx dimy dimz chunk_x chunk_y chunk_z mode quality
          nthreads dst dst_len s.m).2
    ∧ (sperr_comp_3d C src is_float dimx dimy dimz chunk_x chunk_y chunk_z mode quality
        nthreads dst dst_len s).2.m.mem dst
      = (C.sperr_comp_3d src is_float dimx dimy dimz chunk_x chunk_y chunk_z mode quality
          nthreads dst dst_len s.m).2.mem dst
    ∧ (sperr_comp_3d C src is_float dimx dimy dimz chunk_x chunk_y chunk_z mode quality
        nthreads dst dst_len s).2.m.mem dst_len
      = (C.sperr_comp_3d src is_float dimx dimy dimz chunk_x chunk_y chunk_z mode quality
          nthreads dst dst_len s.m).2.mem dst_len
    ∧ (sperr_comp_3d C src is_float dimx dimy dimz chunk_x chunk_y chunk_z mode quality
        nthreads dst dst_len s).2.trace
      = s.trace ++ [Call.comp_3d src is_float dimx dimy dimz chunk_x chunk_y chunk_z mode
          quality nthreads dst dst_len] :=
  ⟨rfl, rfl, rfl, rfl, rfl⟩

/-- A cell that is written, or that holds the same contents in both memories
before the writes, holds the same contents in both afterwards. -/
theorem applyWrites_congr (ws : List (Addr × Word)) (mem mem' : Addr → Word) (a : Addr)
    (h : a ∈ ws.map Prod.fst ∨ mem a = mem' a) :
    applyWrites mem ws a = applyWrites mem' ws a := by
  induction ws generalizing mem mem' with
  | nil =>
    rcases h with h | h
    · simp at h
    · exact h
  | cons w ws ih =>
    unfold applyWrites
    apply ih
    by_cases hw : a = w.1
    · right
      simp [hw]
    · rcases h with h | h
      · left
        simp only [List.map_cons, List.mem_cons] at h
        rcases h with h | h
        · exact absurd h hw
        · exact h
      · right
        simp [hw, h]

/-- A cell that is not written keeps its contents. -/
theorem applyWrites_untouched (ws : List (Addr × Word)) (mem : Addr → Word) (a : Addr)
    (h : a ∉ ws.map Prod.fst) : applyWrites mem ws a = mem a := by
  induction ws generalizing mem with
  | nil => rfl
  | cons w ws ih =>
    simp only [List.map_cons, List.mem_cons, not_or] at h
    unfold applyWrites
    rw [ih _ h.2]
    simp [h.1]

/-- Blanking the dimension slots forgets what they held. -/
theorem hideDims_withDims (m : Machine) (dimx dimy dimz : Addr) (x y z : Word) :
    hideDims (withDims m dimx dimy dimz x y z) dimx dimy dimz = hideDims m dimx dimy dimz := by
  unfold hideDims withDims Machine.store
  simp only [Machine.mk.injEq, and_true]
  funext b
  by_cases h3 : b = dimz
  · simp [h3]
  · by_cases h2 : b = dimy
    · simp [h3, h2]
    · by_cases h1 : b = dimx
      · simp [h3, h2, h1]
      · simp [h3, h2, h1]

/-- Outside the dimension slots, `withDims` leaves memory as it is. -/
theorem withDims_off_slots (m : Machine) (dimx dimy dimz : Addr) (x y z : Word) (a : Addr)
    (h : a ≠ dimx ∧ a ≠ dimy ∧ a ≠ dimz) :
    (withDims m dimx dimy dimz x y z).mem a = m.mem a := by
  unfold withDims Machine.store
  simp [h.1, h.2.1, h.2.2]

/-- C4 (amended): for every codec, arguments and initial state, `sperr_decomp_3d`
returns exactly the codec's status, leaves the whole machine (so `*dst`, the
buffer behind it and the three dimension slots) exactly as the codec left it,
and makes one codec call.  For a codec that does not read the three dimension
slots, and two calls that differ only in what the slots held before (`x, y, z`
against `x', y', z'`): the status and the live set are the same, every cell that
the codec wrote or that is not one of the three slots has the same contents, and
a cell the codec did not write still holds what it held before the call. -/
theorem sperr_decomp_3d_dims_are_outputs (C : Codec) (src : Addr) (src_len : Nat)
    (output_float : Int) (nthreads : Nat) (dimx dimy dimz dst : Addr) :
    (∀ s : State,
        (sperr_decomp_3d C src src_len output_float nthreads dimx dimy dimz dst s).1
          = (C.sperr_decomp_3d src src_len output_float nthreads dimx dimy dimz dst s.m).1
        ∧ (sperr_decomp_3d C src src_len output_float nthreads dimx dimy dimz dst s).2.m
          = (C.sperr_decomp_3d src src_len output_float nthreads dimx dimy dimz dst s.m).2
        ∧ (sperr_decomp_3d C src src_len output_float nthreads dimx dimy dimz dst s).2.trace
          = s.trace ++
            [Call.decomp_3d src src_len output_float nthreads dimx dimy dimz dst])
    ∧ (∀ core : Machine → Effect,
        DoesNotReadDims C src src_len output_float nthreads dimx dimy dimz dst core →
        ∀ (m : Machine) (tr : List Call) (x y z x' y' z' : Word),
          (sperr_decomp_3d C src src_len output_float nthreads dimx dimy dimz dst
              ⟨withDims m dimx dimy dimz x y z, tr⟩).1
            = (sperr_decomp_3d C src src_len output_float nthreads dimx dimy dimz dst
              ⟨withDims m dimx dimy dimz x' y' z', tr⟩).1
          ∧ (sperr_decomp_3d C src src_len output_float nthreads dimx dimy dimz dst
              ⟨withDims m dimx dimy dimz x y z, tr⟩).2.m.live
            = (sperr_decomp_3d C src src_len output_float nthreads dimx dimy dimz dst
              ⟨withDims m dimx dimy dimz x' y' z', tr⟩).2.m.live
          ∧ (∀ a : Addr,
              (a ∈ (core (hideDims m dimx dimy dimz)).writes.map Prod.fst
                ∨ (a ≠ dimx ∧ a ≠ dimy ∧ a ≠ dimz)) →
              (sperr_decomp_3d C src src_len output_float nthreads dimx dimy dimz dst
                  ⟨withDims m dimx dimy dimz x y z, tr⟩).2.m.mem a
                = (sperr_decomp_3d C src src_len output_float nthreads dimx dimy dimz dst
                  ⟨withDims m dimx dimy dimz x' y' z', tr⟩).2.m.mem a)
          ∧ (∀ a : Addr,
              a ∉ (core (hideDims m dimx dimy dimz)).writes.map Prod.fst →
              (sperr_decomp_3d C src src_len output_float nthreads dimx dimy dimz dst
                  ⟨withDims m dimx dimy dimz x y z, tr⟩).2.m.mem a
                = (withDims m dimx dimy dimz x y z).mem a)) := by
  refine ⟨fun _ => ⟨rfl, rfl, rfl⟩, ?_⟩
  intro core hcore m tr x y z x' y' z'
  have h1 := hcore (withDims m dimx dimy dimz x y z)
  have h2 := hcore (withDims m dimx dimy dimz x' y' z')
  rw [hideDims_withDims] at h1 h2
  unfold sperr_decomp_3d
  simp only [h1, h2, runEffect]
  refine ⟨trivial, trivial, ?_, ?_⟩
  · intro a ha
    apply applyWrites_congr
    rcases ha with ha | ha
    · exact Or.inl ha
    · right
      rw [withDims_off_slots m dimx dimy dimz x y z a ha,
        withDims_off_slots m dimx dimy dimz x' y' z' a ha]
  · intro a ha
    exact applyWrites_untouched _ _ a ha

/-- Instance of C4 (amended): `sampleCodec` decoding the header at address `10`
into the slots `1, 2, 3`, once with the slots holding `100, 200, 300` and once
holding `4, 5, 6` before the call. -/
theorem sperr_decomp_3d_dims_are_outputs_witness :
    (sperr_decomp_3d sampleCodec 10 64 1 2 1 2 3 4
        ⟨withDims sampleMachine 1 2 3 100 200 300, []⟩).1
      = (sperr_decomp_3d sampleCodec 10 64 1 2 1 2 3 4
        ⟨withDims sampleMachine 1 2 3 4 5 6, []⟩).1
    ∧ (sperr_decomp_3d sampleCodec 10 64 1 2 1 2 3 4
        ⟨withDims sampleMachine 1 2 3 100 200 300, []⟩).2.m.live
      = (sperr_decomp_3d sampleCodec 10 64 1 2 1 2 3 4
        ⟨withDims sampleMachine 1 2 3 4 5 6, []⟩).2.m.live
    ∧ (∀ a : Addr,
        (a ∈ (sampleCore 10 1 2 3 4 (hideDims sampleMachine 1 2 3)).writes.map Prod.fst
          ∨ (a ≠ 1 ∧ a ≠ 2 ∧ a ≠ 3)) →
        (sperr_decomp_3d sampleCodec 10 64 1 2 1 2 3 4
            ⟨withDims sampleMachine 1 2 3 100 200 300, []⟩).2.m.mem a
          = (sperr_decomp_3d sampleCodec 10 64 1 2 1 2 3 4
            ⟨withDims sampleMachine 1 2 3 4 5 6, []⟩).2.m.mem a)
    ∧ (∀ a : Addr,
        a ∉ (sampleCore 10 1 2 3 4 (hideDims sampleMachine 1 2 3)).writes.map Prod.fst →
        (sperr_decomp_3d sampleCodec 10 64 1 2 1 2 3 4
            ⟨withDims sampleMachine 1 2 3 100 200 300, []⟩).2.m.mem a
          = (withDims sampleMachine 1 2 3 100 200 300).mem a) :=
  (sperr_decomp_3d_dims_are_outputs sampleCodec 10 64 1 2 1 2 3 4).2 (sampleCore 10 1 2 3 4)
    (fun _ => rfl) sampleMachine [] 100 200 300 4 5 6

/-- C4 as stated fails: `rejectingCodec` does not read the dimension slots and
writes nothing, so after `sperr_decomp_3d` the caller still finds in the three
slots what they held before the call: `100, 200, 300` in one run and `4, 5, 6`
in the other, with the same arguments and otherwise the same machine. -/
theorem sperr_decomp_3d_unwritten_dims_depend_on_prior :
    DoesNotReadDims rejectingCodec 10 64 1 2 1 2 3 4 rejectingCore
    ∧ decomp_3d_observed 1 2 3 4
        (sperr_decomp_3d rejectingCodec 10 64 1 2 1 2 3 4
          ⟨withDims sampleMachine 1 2 3 100 200 300, []⟩).1
        (sperr_decomp_3d rejectingCodec 10 64 1 2 1 2 3 4
          ⟨withDims sampleMachine 1 2 3 100 200 300, []⟩).2.m
      = (-1, 0, 100, 200, 300)
    ∧ decomp_3d_observed 1 2 3 4
        (sperr_decomp_3d rejectingCodec 10 64 1 2 1 2 3 4
          ⟨withDims sampleMachine 1 2 3 4 5 6, []⟩).1
        (sperr_decomp_3d rejectingCodec 10 64 1 2 1 2 3 4
          ⟨withDims sampleMachine 1 2 3 4 5 6, []⟩).2.m
      = (-1, 0, 4, 5, 6)
    ∧ decomp_3d_observed 1 2 3 4
        (sperr_decomp_3d rejectingCodec 10 64 1 2 1 2 3 4
          ⟨withDims sampleMachine 1 2 3 100 200 300, []⟩).1
        (sperr_decomp_3d rejectingCodec 10 64 1 2 1 2 3 4
          ⟨withDims sampleMachine 1 2 3 100 200 300, []⟩).2.m
      ≠ decomp_3d_observed 1 2 3 4
        (sperr_decomp_3d rejectingCodec 10 64 1 2 1 2 3 4
          ⟨withDims sampleMachine 1 2 3 4 5 6, []⟩).1
        (sperr_decomp_3d rejectingCodec 10 64 1 2 1 2 3 4
          ⟨withDims sampleMachine 1 2 3 4 5 6, []⟩).2.m :=
  ⟨fun _ => rfl, by decide, by decide, by decide⟩

/-- C5: `sperr_parse_header` has no status and no failure path of its own.  For
every codec and every `src` it yields a state (never a status), makes exactly one
codec call with `src, dimx, dimy, dimz, is_float` in that order, and the four
values found in `*dimx`, `*dimy`, `*dimz`, `*is_float` afterwards, like the whole
machine, are exactly what the codec's `sperr_parse_header` left there. -/
theorem sperr_parse_header_passthrough (C : Codec) (src dimx dimy dimz is_float : Addr)
    (s : State) :
    (sperr_parse_header C src dimx dimy dimz is_float s).m
        = C.sperr_parse_header src dimx dimy dimz is_float s.m
    ∧ (sperr_parse_header C src dimx dimy dimz is_float s).m.mem dimx
        = (C.sperr_parse_header src dimx dimy dimz is_float s.m).mem dimx
    ∧ (sperr_parse_header C src dimx dimy dimz is_float s).m.mem dimy
        = (C.sperr_parse_header src dimx dimy dimz is_float s.m).mem dimy
    ∧ (sperr_parse_header C src dimx dimy dimz is_float s).m.mem dimz
        = (C.sperr_parse_header src dimx dimy dimz is_float s.m).mem dimz
    ∧ (sperr_parse_header C src dimx dimy dimz is_float s).m.mem is_float
        = (C.sperr_parse_header src dimx dimy dimz is_float s.m).mem is_float
    ∧ (sperr_parse_header C src dimx dimy dimz is_float s).trace
        = s.trace ++ [Call.parse_header src dimx dimy dimz is_float] :=
  ⟨rfl, rfl, rfl, rfl, rfl, rfl⟩

/-! ## Release -/

/-- Releasing a live, non-null block succeeds and yields the machine with that
block taken out of the live set. -/
theorem free_live (p : Addr) (m : Machine) (hp : p ≠ 0) (hl : (m.live p).isSome) :
    free p m = some ⟨m.mem, fun q => if q = p then none else m.live q⟩ := by
  unfold free
  rw [if_neg hp]
  cases h : m.live p with
  | none => rw [h] at hl; exact absurd hl (by decide)
  | some n => rfl

/-- Releasing a non-null pointer that is not live is undefined. -/
theorem free_not_live (p : Addr) (m : Machine) (hp : p ≠ 0) (hl : m.live p = none) :
    free p m = none := by
  unfold free
  rw [if_neg hp, hl]

/-- C10: for a live (non-null) buffer `p`, `free_dst p` succeeds; it is exactly
the C allocator's `free p` on the machine and makes no codec call (the call log
is unchanged); afterwards `p` is no longer live, every other block is live
exactly as before with the same size and the same contents; and a second
`free_dst p` is undefined, so the buffer is released exactly once. -/
theorem free_dst_releases_exactly (p : Addr) (s : State) (hp : p ≠ 0)
    (hl : (s.m.live p).isSome) :
    ∃ s' : State, free_dst p s = some s'
      ∧ free p s.m = some s'.m
      ∧ s'.trace = s.trace
      ∧ s'.m.live p = none
      ∧ (∀ q : Addr, q ≠ p → s'.m.live q = s.m.live q)
      ∧ (∀ q n i : Nat, q ≠ p → s.m.live q = some n → i < n →
          s'.m.mem (q + i) = s.m.mem (q + i))
      ∧ free_dst p s' = none := by
  refine ⟨⟨⟨s.m.mem, fun q => if q = p then none else s.m.live q⟩, s.trace⟩, ?_, ?_, rfl, ?_, ?_,
    fun _ _ _ _ _ _ => rfl, ?_⟩
  · unfold free_dst
    rw [free_live p s.m hp hl]
  · exact free_live p s.m hp hl
  · simp
  · intro q hq
    simp [hq]
  · unfold free_dst
    rw [free_not_live p _ hp (by simp)]

/-- Instance of C10: releasing the block at `4096` of `sampleMachine`, with one
earlier codec call in the log. -/
theorem free_dst_releases_exactly_witness :
    ∃ s' : State, free_dst 4096 ⟨sampleMachine, [Call.parse_header 10 1 2 3 4]⟩ = some s'
      ∧ free 4096 sampleMachine = some s'.m
      ∧ s'.trace = [Call.parse_header 10 1 2 3 4]
      ∧ s'.m.live 4096 = none
      ∧ (∀ q : Addr, q ≠ 4096 → s'.m.live q = sampleMachine.live q)
      ∧ (∀ q n i : Nat, q ≠ 4096 → sampleMachine.live q = some n → i < n →
          s'.m.mem (q + i) = sampleMachine.mem (q + i))
      ∧ free_dst 4096 s' = none :=
  free_dst_releases_exactly 4096 ⟨sampleMachine, [Call.parse_header 10 1 2 3 4]⟩
    (by decide) (by decide)

end Sperr
